import Mathlib

/-!
Verification of the dlmanager concurrent download engine.

Shallow embedding of the Go source (cmd/downloadCmd.go, cmd/errors.go,
the HTTP helper file with httpClient / sendHTTPRequest /
sendHTTPRequestWithHeader / sendHTTPHeadRequest) into Lean.  Machine
integers (Go int64 sizes, byte counts) are modelled as ℤ; Go float64
arithmetic in the percentage computation is modelled by exact rationals;
fallible operations return pairs with an Option error or Except.
-/

namespace Dlmanager

/-- Error taxonomy as produced by the code paths we model. -/
inductive DlError where
  | statFailure : DlError
  | fetchError (statusCode : ℕ) : DlError
  | redirectLimit : DlError
  | probeFailure (msg : String) : DlError
  deriving DecidableEq, Repr

/-! ## getExistingFileSize (cmd/downloadCmd.go lines 97-111)

The result of `os.Stat` on the destination path is abstracted to what the
function inspects: the path may name nothing, a directory, a regular file
with a size, or stat may fail with a non-NotExist error. -/

/-- Outcome of `os.Stat` on a path, as far as getExistingFileSize looks at it. -/
inductive FileStat where
  | absent : FileStat
  | directory (size : ℤ) : FileStat
  | file (size : ℤ) : FileStat
  | statFailed : FileStat
  deriving DecidableEq, Repr

/-- Embeds getExistingFileSize: on a NotExist stat error return (0, nil); on any
other stat error return (0, err); if the entry is a directory return
(fileSize, err) where at that program point fileSize is still 0 and err is nil;
otherwise return the stat size with nil error. -/
def getExistingFileSize : FileStat → ℤ × Option DlError
  | .absent => (0, none)
  | .statFailed => (0, some .statFailure)
  | .directory _ => (0, none)
  | .file size => (size, none)

/-! ## writeToDestinationFile open flags and seek (cmd/downloadCmd.go lines 114-140) -/

/-- The open-mode bits of `os.OpenFile` that the source combines. -/
structure OpenFlags where
  create : Bool
  writeOnly : Bool
  append : Bool
  trunc : Bool
  deriving DecidableEq, Repr

/-- Seek origin passed to `file.Seek(0, whence)`. -/
inductive Whence where
  | seekStart : Whence
  | seekEnd : Whence
  deriving DecidableEq, Repr

/-- Embeds the flag computation of writeToDestinationFile:
`flag := os.O_CREATE | os.O_WRONLY; if fInfo > 0 { flag = os.O_APPEND | os.O_WRONLY }`.
Note the fresh branch has no O_TRUNC bit, and the append branch drops O_CREATE. -/
def destFileFlags (fInfo : ℤ) : OpenFlags :=
  if 0 < fInfo then
    { create := false, writeOnly := true, append := true, trunc := false }
  else
    { create := true, writeOnly := true, append := false, trunc := false }

/-- Embeds the seek computation of writeToDestinationFile:
`whence := io.SeekStart; if fInfo > 0 { whence = io.SeekEnd }; file.Seek(0, whence)`. -/
def destFileWhence (fInfo : ℤ) : Whence :=
  if 0 < fInfo then .seekEnd else .seekStart

/-- Result of one writeToDestinationFile invocation on a response whose body
holds `bodyLen` bytes: the open flags and seek origin used, and the number of
bytes streamed to the file (the 32 KiB chunk loop copies the whole body). -/
structure WriteResult where
  flags : OpenFlags
  whence : Whence
  written : ℕ
  deriving DecidableEq, Repr

/-- Embeds writeToDestinationFile for a destination whose stat-reported existing size
is `fInfo` and a response body of `bodyLen` bytes. -/
def writeToDestinationFile (fInfo : ℤ) (bodyLen : ℕ) : WriteResult :=
  { flags := destFileFlags fInfo, whence := destFileWhence fInfo, written := bodyLen }

/-! ## sendHTTPRequestWithHeader (HTTP helper file, lines 57-73) -/

/-- The outgoing GET request as built by `http.NewRequestWithContext` with a nil
body: its ContentLength field is 0 (Go semantics for a nil request body), and no
Range header is set yet.  `rangeHeader = some v` models the header
`Range: bytes=v-`. -/
structure HTTPRequest where
  url : String
  contentLength : ℤ
  rangeHeader : Option ℤ
  deriving DecidableEq, Repr

/-- A fresh bodyless GET request for `url`. -/
def newGETRequest (url : String) : HTTPRequest :=
  { url := url, contentLength := 0, rangeHeader := none }

/-- Embeds the request construction of sendHTTPRequestWithHeader: build a GET
request, then
`if fileSize > 0 && fileSize != req.ContentLength { req.Header.Set("Range", ...) }`.
The comparison is against the ContentLength of the outgoing request itself
(which is 0), not against any remote size. -/
def sendHTTPRequestWithHeader (url : String) (fileSize : ℤ) : HTTPRequest :=
  let req := newGETRequest url
  if 0 < fileSize ∧ fileSize ≠ req.contentLength then
    { req with rangeHeader := some fileSize }
  else
    req

/-- Renders the Range header value the source formats with
`fmt.Sprintf("bytes=%v-", fileSize)`. -/
def renderRangeHeader (fileSize : ℤ) : String :=
  "bytes=" ++ toString fileSize ++ "-"

/-! ## httpClient redirect policy and client.Do redirect following
(HTTP helper file, lines 13-40) -/

/-- Embeds redirectPolicyFunc: Go calls CheckRedirect before following each
redirect, passing the list `via` of requests already made; the source returns
an error whenever `len(via) >= 1`. -/
def redirectPolicy (viaLen : ℕ) : Option String :=
  if 1 ≤ viaLen then some "stopped after 1 redirect" else none

/-- Go client redirect loop: given that the server will answer with
`remaining` consecutive redirects before a final response, and that `viaLen`
requests have already been made, follow redirects while CheckRedirect permits.
Returns the number of redirects actually followed, or the policy error. -/
def redirectLoop : ℕ → ℕ → Except String ℕ
  | 0, _ => .ok 0
  | remaining + 1, viaLen =>
    match redirectPolicy viaLen with
    | some e => .error e
    | none =>
      match redirectLoop remaining (viaLen + 1) with
      | .ok k => .ok (k + 1)
      | .error e => .error e

/-- Embeds `client.Do` against a server that issues `numRedirects` redirects
before its final response: the initial request is made (via then has length 1),
after which the redirect loop runs. -/
def clientDo (numRedirects : ℕ) : Except String ℕ :=
  redirectLoop numRedirects 1

/-! ## Remote size probe (cmd/downloadCmd.go lines 175-195, HEAD helper lines 76-87) -/

/-- An HTTP response as far as the probe and the worker inspect it: status code,
the ContentLength header field (Go sets it to -1 when the response carries no
usable length), and the body length in bytes. -/
structure HTTPResponse where
  statusCode : ℕ
  contentLength : ℤ
  bodyLen : ℕ
  deriving DecidableEq, Repr

/-- Embeds getContentLength over an abstract network `net` (what
sendHTTPHeadRequest returns for each URL): on a request error return (0, err);
otherwise return resp.ContentLength unexamined, with nil error. -/
def getContentLength (net : String → Except String HTTPResponse) (url : String) :
    Except String ℤ :=
  match net url with
  | .error e => .error e
  | .ok resp => .ok resp.contentLength

/-- Embeds getTotalContentLength: sequentially HEAD each URL, returning the
running sum together with the first error encountered, if any. -/
def getTotalContentLength (net : String → Except String HTTPResponse) :
    List String → Except String ℤ
  | [] => .ok 0
  | u :: rest =>
    match net u with
    | .error e => .error e
    | .ok resp =>
      match getTotalContentLength net rest with
      | .error e => .error e
      | .ok s => .ok (resp.contentLength + s)

/-! ## calculateDownloadPercentage (cmd/downloadCmd.go lines 198-202)

Go float64 arithmetic is modelled by exact rationals; the two divisions by
1e+6 are exact rescalings that cancel in the quotient. -/

/-- Embeds calculateDownloadPercentage:
`x := float64(bytes) / 1e+6; y := float64(contentLength) / 1e+6; return (x / y) * 100`. -/
def calculateDownloadPercentage (bytes contentLength : ℤ) : ℚ :=
  let x : ℚ := (bytes : ℚ) / 1000000
  let y : ℚ := (contentLength : ℚ) / 1000000
  (x / y) * 100

/-- Rounding a value to two decimal places, as the `%.2f` format verb renders it. -/
def twoDecimalRound (q : ℚ) : ℚ :=
  ((round (q * 100) : ℤ) : ℚ) / 100

/-! ## displayDownloadInfo (cmd/downloadCmd.go lines 205-218)

The progress-rendering loop, in its bytes-channel arm, performs three channel
receives per rendered line: one in the `case <-bytes:` guard (value
discarded), one inside `calculateDownloadPercentage(<-bytes, contentLength)`,
and one as the Fprintf argument that becomes the printed byte count.  We model
the renderer on the finite queue of values sent on the bytes channel; a
rendered line records the printed byte count, the printed total, and the
percentage printed beside them. -/

/-- One rendered progress line:
`transferred <shown> / <total> bytes (<pct>%)`. -/
structure ProgressLine where
  shown : ℤ
  total : ℤ
  pct : ℚ
  deriving DecidableEq, Repr

/-- Embeds the bytes-channel arm of displayDownloadInfo on a queue of progress
events: each loop iteration consumes three events (guard, percentage argument,
printed count) and renders one line; with fewer than three events queued the
loop blocks on a receive and renders nothing further. -/
def displayDownloadInfo (contentLength : ℤ) : List ℤ → List ProgressLine
  | v1 :: v2 :: v3 :: rest =>
    let _ := v1
    { shown := v3, total := contentLength,
      pct := calculateDownloadPercentage v2 contentLength }
      :: displayDownloadInfo contentLength rest
  | _ => []

/-! ## The per-task worker of HandleDownload (cmd/downloadCmd.go lines 307-364)

Straight-line embedding of the goroutine body on the path where the network
requests themselves succeed.  It records the HTTP requests issued, the bytes
written to the destination file, and the errors sent on the error channel.
The source sends on errorChan without returning afterwards, so a bad status
code does not stop the subsequent write: the embedding keeps that control
flow. -/

/-- HTTP request method. -/
inductive HTTPMethod where
  | get : HTTPMethod
  | head : HTTPMethod
  deriving DecidableEq, Repr

/-- A request the worker issued: method, URL, and optional Range header value. -/
structure ReqRecord where
  method : HTTPMethod
  url : String
  range : Option ℤ
  deriving DecidableEq, Repr

/-- The environment one worker runs against: the stat-reported size of the existing
destination file, the ContentLength reported by the HEAD probe, and the status
and body length of the response to the (range) GET. -/
structure WorkerEnv where
  existingFileSize : ℤ
  remoteContentLength : ℤ
  responseStatus : ℕ
  responseBodyLen : ℕ
  deriving DecidableEq, Repr

/-- What one worker did: the requests it issued in order, the bytes it wrote to
the destination file, and the errors it sent on the error channel. -/
structure WorkerTrace where
  requests : List ReqRecord
  bytesWritten : ℕ
  errorsSent : List DlError
  deriving DecidableEq, Repr

/-- Embeds the worker goroutine body: (1) a plain GET via sendHTTPRequest to
determine the filename; (2) a HEAD via getContentLength; (3) if the existing
file size equals the reported content length, return with nothing written;
(4) otherwise the range-aware GET via sendHTTPRequestWithHeader; (5) a status
check that sends fetchError on non-200/206 but does not return; (6) the write
via writeToDestinationFile. -/
def downloadWorker (url : String) (env : WorkerEnv) : WorkerTrace :=
  let filenameReq : ReqRecord := { method := .get, url := url, range := none }
  let headReq : ReqRecord := { method := .head, url := url, range := none }
  if env.existingFileSize = env.remoteContentLength then
    { requests := [filenameReq, headReq], bytesWritten := 0, errorsSent := [] }
  else
    let rangeReq : ReqRecord :=
      { method := .get, url := url,
        range := (sendHTTPRequestWithHeader url env.existingFileSize).rangeHeader }
    let statusErrs : List DlError :=
      if env.responseStatus ≠ 200 ∧ env.responseStatus ≠ 206 then
        [DlError.fetchError env.responseStatus]
      else []
    let w := writeToDestinationFile env.existingFileSize env.responseBodyLen
    { requests := [filenameReq, headReq, rangeReq],
      bytesWritten := w.written,
      errorsSent := statusErrs }

/-- Counts the GET requests in a trace. -/
def countGETs (t : WorkerTrace) : ℕ :=
  (t.requests.filter (fun r => r.method = HTTPMethod.get)).length

/-! ## HandleDownload overall outcome (cmd/downloadCmd.go lines 238-369)

After flag parsing, validation, URL reading and the total-content-length probe
succeed, HandleDownload launches the workers, waits on the WaitGroup, prints
the summary and returns nil unconditionally; errors sent by workers are
received by the error arm of displayDownloadInfo, whose closure discards them. -/

/-- Embeds the batch run: a setup error (flag parsing, validation, URL-file
reading, or the probe) is returned directly; otherwise every worker runs and
the returned error is nil regardless of the errors the workers sent. -/
def runBatch (setup : Option DlError) (tasks : List (String × WorkerEnv)) :
    Option DlError × List WorkerTrace :=
  match setup with
  | some e => (some e, [])
  | none => (none, tasks.map (fun t => downloadWorker t.1 t.2))

/-! ## Theorems settling the claims -/

/-- Claim C1 (code bug): the claim demands one channel receive per rendered
line, reused for both the printed byte count and the percentage.  Evaluating
the embedded renderer at the failing input shows the code consumes three queued
events [24576, 73728, 122880] to render a single line whose printed byte count
is 122880 while its percentage is computed from the different value 73728, and
that a single queued event [24576] yields no rendered line at all (the loop
blocks on a second receive). -/
theorem C1_triple_read_per_line :
    displayDownloadInfo 247399 [24576, 73728, 122880] =
      [{ shown := 122880, total := 247399,
         pct := calculateDownloadPercentage 73728 247399 }] ∧
    calculateDownloadPercentage 73728 247399 ≠
      calculateDownloadPercentage 122880 247399 ∧
    displayDownloadInfo 247399 [24576] = [] := by
  refine ⟨rfl, ?_, rfl⟩
  intro h
  norm_num [calculateDownloadPercentage] at h

/-- Claim C2, counterexample: with resume offset 10 and a known remote total
size of 5, the claim says no Range header is set (the offset is not below the
total), yet the code sets `Range: bytes=10-`: the source compares the offset
against the ContentLength of the outgoing request (0), never against the
remote total. -/
theorem C2_counterexample :
    (sendHTTPRequestWithHeader "u" 10).rangeHeader = some 10 ∧
    renderRangeHeader 10 = "bytes=10-" ∧
    ¬ ((0 : ℤ) < 10 ∧ (10 : ℤ) < 5) := by
  refine ⟨rfl, rfl, by decide⟩

/-- Claim C2, amended: the Range header `bytes=<offset>-` is set on the GET
request if and only if the resume offset is positive; the known remote total
size plays no role in the decision. -/
theorem C2_range_header_iff_positive_offset (url : String) (resumeOffset : ℤ) :
    (sendHTTPRequestWithHeader url resumeOffset).rangeHeader =
      if 0 < resumeOffset then some resumeOffset else none := by
  simp only [sendHTTPRequestWithHeader, newGETRequest]
  by_cases h : 0 < resumeOffset
  · rw [if_pos ⟨h, by omega⟩, if_pos h]
  · rw [if_neg (fun hc => h hc.1), if_neg h]

/-- Claim C3, counterexample: with the existing local file size equal to the
remote total size (both 100), the claim says no HTTP GET request at all is
issued for the task, yet the worker still issues one GET (the preliminary
request used to determine the filename) before the equality check. -/
theorem C3_counterexample :
    countGETs (downloadWorker "u" ⟨100, 100, 200, 0⟩) = 1 := by
  rfl

/-- Claim C3, amended: when the existing local file size equals the remote
total size, the worker issues no range/download GET — its requests are exactly
the preliminary filename GET and the HEAD probe — writes zero additional bytes
to the destination file, and sends no error, so the task completes with the
file unchanged. -/
theorem C3_no_download_get_when_complete (url : String) (env : WorkerEnv)
    (h : env.existingFileSize = env.remoteContentLength) :
    (downloadWorker url env).bytesWritten = 0 ∧
    (downloadWorker url env).errorsSent = [] ∧
    (downloadWorker url env).requests =
      [{ method := .get, url := url, range := none },
       { method := .head, url := url, range := none }] := by
  simp [downloadWorker, h]

/-- Claim C3, witness at a concrete complete task. -/
theorem C3_witness :
    (downloadWorker "f" ⟨100, 100, 200, 0⟩).bytesWritten = 0 ∧
    (downloadWorker "f" ⟨100, 100, 200, 0⟩).requests =
      [{ method := .get, url := "f", range := none },
       { method := .head, url := "f", range := none }] :=
  ⟨(C3_no_download_get_when_complete "f" ⟨100, 100, 200, 0⟩ rfl).1,
   (C3_no_download_get_when_complete "f" ⟨100, 100, 200, 0⟩ rfl).2.2⟩

/-- Claim C4, counterexample: for a URL whose server responds with exactly one
redirect, the claim says the fetch follows it and can succeed, yet the embedded
client fails that very first redirect with the redirect-limit error: the policy
rejects as soon as one request is in `via`.  The own test of the repository
asserts exactly this behaviour for a single-redirect URL. -/
theorem C4_counterexample :
    clientDo 1 = Except.error "stopped after 1 redirect" := by
  rfl

/-- Claim C4, amended: no redirect is ever followed — any server answer chain
with at least one redirect fails the fetch with the redirect-limit error
(so for a redirecting URL the batch-level HEAD probe already fails and no
destination file is created), while a redirect-free response succeeds. -/
theorem C4_any_redirect_fails (n : ℕ) (h : 1 ≤ n) :
    clientDo n = Except.error "stopped after 1 redirect" ∧
    clientDo 0 = Except.ok 0 := by
  refine ⟨?_, rfl⟩
  cases n with
  | zero => exact absurd h (by decide)
  | succ m => rfl

/-- Claim C4, witness at two consecutive redirects. -/
theorem C4_witness :
    1 ≤ 2 ∧ clientDo 2 = Except.error "stopped after 1 redirect" :=
  ⟨by decide, (C4_any_redirect_fails 2 (by decide)).1⟩

/-- Claim C5 (code bug): the claim says a non-200/206 status fails the task
and no bytes of that response body reach the destination file.  Evaluating the
worker at the failing input (existing size 0, remote size 2048, range-GET
response of status 404 with a 1024-byte body) shows the code does send the
fetch error for status 404 but, lacking a return after the send, still writes
all 1024 body bytes to the destination file. -/
theorem C5_error_status_body_still_written :
    (downloadWorker "u404" ⟨0, 2048, 404, 1024⟩).errorsSent =
      [DlError.fetchError 404] ∧
    (downloadWorker "u404" ⟨0, 2048, 404, 1024⟩).bytesWritten = 1024 := by
  exact ⟨rfl, rfl⟩

/-- Claim C6 (code bug): the claim says a batch containing a failing task
returns a non-success overall result.  Evaluating the embedded batch run on a
single task whose range GET answers 404 shows the worker sends a fetch error,
yet the overall result of the run is success (nil): after the WaitGroup join
the source returns nil unconditionally, and the error-channel receiver
discards what it receives. -/
theorem C6_task_failure_still_returns_success :
    (runBatch none [("u404", ⟨0, 2048, 404, 1024⟩)]).1 = none ∧
    ((runBatch none [("u404", ⟨0, 2048, 404, 1024⟩)]).2.map
        WorkerTrace.errorsSent) = [[DlError.fetchError 404]] := by
  exact ⟨rfl, rfl⟩

/-- Claim C7, counterexample: the claim says a probe whose response carries no
usable content length fails with a probe error and never reports a negative or
missing length as a valid size, yet on a network whose HEAD response has
ContentLength -1 (the Go value for an absent length) the embedded
getContentLength returns -1 with nil error. -/
theorem C7_counterexample :
    getContentLength (fun _ => Except.ok ⟨200, -1, 0⟩) "u" = Except.ok (-1) ∧
    (-1 : ℤ) < 0 := by
  exact ⟨rfl, by decide⟩

/-- Claim C7, amended: the probe fails exactly when the HEAD request itself
fails (no response), and in every other case it returns the ContentLength
field of the response unexamined — including the value -1 that stands for a
missing length — with nil error. -/
theorem C7_probe_error_only_on_request_failure
    (net : String → Except String HTTPResponse) (url : String) :
    (∀ e, net url = Except.error e →
      getContentLength net url = Except.error e) ∧
    (∀ resp, net url = Except.ok resp →
      getContentLength net url = Except.ok resp.contentLength) := by
  constructor <;> intro x hx <;> simp [getContentLength, hx]

/-- Claim C7, witness: a concrete no-length HEAD response is reported as the
valid size -1. -/
theorem C7_witness :
    getContentLength (fun _ => Except.ok ⟨200, -1, 0⟩) "file.bin" =
      Except.ok (-1) :=
  (C7_probe_error_only_on_request_failure
    (fun _ => Except.ok ⟨200, -1, 0⟩) "file.bin").2 ⟨200, -1, 0⟩ rfl

/-- Claim C8, counterexample: in the fresh case (existing size 0) the claim
says the file is opened in create/truncate mode, yet the flags the code
computes carry no truncate bit: they are O_CREATE | O_WRONLY only. -/
theorem C8_counterexample :
    destFileFlags 0 ≠
      { create := true, writeOnly := true, append := false, trunc := true } := by
  decide

/-- Claim C8, amended: when the stat-reported existing size is positive the
destination file is opened with O_APPEND | O_WRONLY and the position is moved
to end-of-file before the first write; otherwise it is opened with
O_CREATE | O_WRONLY — create mode without a truncate bit — and the position is
the start of the file (the fresh branch is only reached when the existing size
is 0, so there is no pre-existing content to discard). -/
theorem C8_open_flags_and_seek (fInfo : ℤ) (bodyLen : ℕ) :
    (0 < fInfo →
      (writeToDestinationFile fInfo bodyLen).flags =
        { create := false, writeOnly := true, append := true, trunc := false } ∧
      (writeToDestinationFile fInfo bodyLen).whence = Whence.seekEnd) ∧
    (fInfo ≤ 0 →
      (writeToDestinationFile fInfo bodyLen).flags =
        { create := true, writeOnly := true, append := false, trunc := false } ∧
      (writeToDestinationFile fInfo bodyLen).whence = Whence.seekStart) := by
  constructor <;> intro h
  · simp [writeToDestinationFile, destFileFlags, destFileWhence, if_pos h]
  · simp [writeToDestinationFile, destFileFlags, destFileWhence,
      if_neg (not_lt.mpr h)]

/-- Claim C8, witness at a resumed (size 5) and a fresh (size 0) destination. -/
theorem C8_witness :
    (writeToDestinationFile 5 7).flags =
      { create := false, writeOnly := true, append := true, trunc := false } ∧
    (writeToDestinationFile 0 7).flags =
      { create := true, writeOnly := true, append := false, trunc := false } :=
  ⟨((C8_open_flags_and_seek 5 7).1 (by decide)).1,
   ((C8_open_flags_and_seek 0 7).2 (by decide)).1⟩

/-- Claim C9 (confirmed): for 0 ≤ transferred ≤ totalExpected with
totalExpected positive, the computed percentage lies within [0, 100] and equals
100 * transferred / totalExpected exactly (the two divisions by 1e+6 cancel),
and at totalExpected = 247399, transferred = 24576 the value rounded to two
decimals is 9.93. -/
theorem C9_percentage_bound_and_example (b t : ℤ)
    (hb : 0 ≤ b) (hbt : b ≤ t) (ht : 0 < t) :
    0 ≤ calculateDownloadPercentage b t ∧
    calculateDownloadPercentage b t ≤ 100 ∧
    calculateDownloadPercentage b t = 100 * (b : ℚ) / (t : ℚ) ∧
    twoDecimalRound (calculateDownloadPercentage 24576 247399) = 993 / 100 := by
  have htQ : (0 : ℚ) < (t : ℚ) := by exact_mod_cast ht
  have hbQ : (0 : ℚ) ≤ (b : ℚ) := by exact_mod_cast hb
  have hbtQ : (b : ℚ) ≤ (t : ℚ) := by exact_mod_cast hbt
  have hne : (t : ℚ) ≠ 0 := ne_of_gt htQ
  have hid : calculateDownloadPercentage b t = 100 * (b : ℚ) / (t : ℚ) := by
    unfold calculateDownloadPercentage
    field_simp
    ring
  refine ⟨?_, ?_, hid, ?_⟩
  · rw [hid]
    exact div_nonneg (by linarith) (le_of_lt htQ)
  · rw [hid]
    rw [div_le_iff₀ htQ]
    linarith
  · have hval : calculateDownloadPercentage 24576 247399 =
        (2457600 : ℚ) / 247399 := by
      unfold calculateDownloadPercentage
      norm_num
    rw [hval]
    unfold twoDecimalRound
    have h100 : ((2457600 : ℚ) / 247399) * 100 = (245760000 : ℚ) / 247399 := by
      ring
    rw [h100, round_eq]
    have hfloor : ⌊(245760000 : ℚ) / 247399 + 1 / 2⌋ = 993 := by
      apply Int.floor_eq_iff.mpr
      constructor
      · norm_num
      · norm_num
    rw [hfloor]
    norm_num

/-- Claim C9, witness at the literal example values of the specification. -/
theorem C9_witness :
    (0 : ℤ) ≤ 24576 ∧ (24576 : ℤ) ≤ 247399 ∧ (0 : ℤ) < 247399 ∧
    calculateDownloadPercentage 24576 247399 = 100 * (24576 : ℚ) / 247399 :=
  ⟨by decide, by decide, by decide,
   (C9_percentage_bound_and_example 24576 247399
      (by decide) (by decide) (by decide)).2.2.1⟩

/-- Claim C10 (confirmed): the existing-file-size operation returns byte count
0 with nil error both when nothing exists at the path and when the path names
a directory (of any stat-reported size): a directory at the destination is
treated as an absent file, giving resume offset 0 rather than an error. -/
theorem C10_absent_and_directory_give_zero (size : ℤ) :
    getExistingFileSize FileStat.absent = (0, none) ∧
    getExistingFileSize (FileStat.directory size) = (0, none) :=
  ⟨rfl, rfl⟩

end Dlmanager
